import Mathlib

/-!
Verification of the AlignAI resume-tailoring agents against their
natural-language specification.

The Python sources (`src/agents/*.py`) are shallowly embedded here:

* strings are `List Char`; Python `str.strip`, `str.replace`, `str.split`
  and slicing are modelled by `stripChars`, `pyReplace`, `splitLines` and
  `List.take`;
* every external effect (hosted Gemini model calls, FAISS index builds,
  similarity search, disk persistence, JSON parsing of model output) is a
  field of an environment record (`PipeEnv`, `RagEnv`) so that the pure
  control flow of the Python code can be studied for an arbitrary
  behaviour of those collaborators;
* a Python function that can raise is embedded as a function into
  `Except PyErr _`; functions that catch exceptions and return error
  dictionaries are embedded as total functions returning result records;
* observable actions (stage invocations, vector-store retrievals, the
  single grounded LLM call of the RetrievalQA chain, disk loads/saves,
  output-file writes) are recorded in an `Event` trace so that claims
  about "no artifact is written" or "retrieval is skipped" are statements
  about the trace.
-/

namespace AlignAI

/-- Python exception payload: the message text. -/
abbrev PyErr := List Char

/-! ## Python string primitives -/

/-- Python `str.strip()`: remove whitespace from both ends. -/
def stripChars (s : List Char) : List Char :=
  ((s.dropWhile Char.isWhitespace).reverse.dropWhile Char.isWhitespace).reverse

/-- Fuelled scanner behind `pyReplace`.  Each step consumes one unit of
fuel and at least one character of `s`, so fuel `s.length` suffices; the
fuel only makes the recursion structural. -/
def pyReplaceFuel (fuel : Nat) (s pat rep : List Char) : List Char :=
  match fuel, s with
  | 0, s => s
  | _ + 1, [] => []
  | f + 1, c :: rest =>
    if pat ≠ [] ∧ pat.isPrefixOf (c :: rest) then
      rep ++ pyReplaceFuel f ((c :: rest).drop pat.length) pat rep
    else
      c :: pyReplaceFuel f rest pat rep

/-- Python `str.replace(pat, rep)`: replace every (non-overlapping,
leftmost-first) occurrence of `pat` by `rep`.  All patterns used by the
sources are non-empty. -/
def pyReplace (s pat rep : List Char) : List Char :=
  pyReplaceFuel s.length s pat rep

/-- Whether `pat` occurs as a contiguous sublist of `s`
(Python `pat in s`). -/
def hasOccur (s pat : List Char) : Bool :=
  match s with
  | [] => pat.isEmpty
  | _ :: rest => pat.isPrefixOf s || hasOccur rest pat

/-- Python `text.split('\n')`. -/
def splitLines (s : List Char) : List (List Char) :=
  s.splitOn '\n'

/-- Literal characters that cannot be written directly in this file:
left brace. -/
def lbrace : Char := Char.ofNat 123

/-- Right brace. -/
def rbrace : Char := Char.ofNat 125

/-- Backtick. -/
def btick : Char := Char.ofNat 96

/-- The template placeholder `{{CONTENT}}` of `resume_generator.py`. -/
def placeholderL : List Char :=
  [lbrace, lbrace, 'C', 'O', 'N', 'T', 'E', 'N', 'T', rbrace, rbrace]

/-- The markdown fence `` ```latex `` stripped from model responses. -/
def fenceLatex : List Char := [btick, btick, btick, 'l', 'a', 't', 'e', 'x']

/-- The markdown fence `` ```json `` stripped from model responses. -/
def fenceJson : List Char := [btick, btick, btick, 'j', 's', 'o', 'n']

/-- The bare markdown fence `` ``` ``. -/
def fence : List Char := [btick, btick, btick]

/-- Post-processing `response.text.replace('```json', '').replace('```', '').strip()` —
the fence-stripping post-processing of the three analysis agents. -/
def stripJsonFences (s : List Char) : List Char :=
  stripChars (pyReplace (pyReplace s fenceJson []) fence [])

/-- Clean-up `latex_content.replace('```latex', '').replace('```', '').strip()` —
the clean-up applied to the renderer's model response
(`resume_generator.py` line 157). -/
def cleanLatex (s : List Char) : List Char :=
  stripChars (pyReplace (pyReplace s fenceLatex []) fence [])

/-! ## Data model -/

/-- A parsed JSON value, the shape of the structured records
(JobRequirements / ResumeFacts / TailoringStrategy dicts) that the
pipeline passes between stages. -/
inductive PyVal where
  | str (s : List Char)
  | num (n : Int)
  | bool (b : Bool)
  | list (xs : List PyVal)
  | dict (kvs : List (List Char × PyVal))
  | pynull
deriving Repr

/-- A LangChain `Document`: page content plus the metadata fields the
sources attach (`source`, `user_id`, `type`, and `rating` for feedback
documents). -/
structure Document where
  page_content : List Char
  source : Option (List Char) := none
  user_id : List Char
  dtype : List Char
  rating : Option Nat := none
deriving Repr, DecidableEq

/-- The FAISS vector store, abstracted to the list of chunks it indexes. -/
structure VectorStore where
  docs : List Document
deriving Repr, DecidableEq

/-- Observable actions of the embedded code. -/
inductive Event where
  /-- Stage `analyze_job_description` invoked (first extractor call). -/
  | stageJob
  /-- Stage `analyze_resume` invoked (second extractor call). -/
  | stageResume
  /-- Stage `create_matching_strategy` invoked. -/
  | stageStrategy
  /-- Stage `generate_tailored_resume` invoked. -/
  | stageRender
  /-- A similarity search against the user's vector store. -/
  | retrieve (query : List Char) (k : Nat)
  /-- The single LLM call of the RetrievalQA stuff chain, recording the
  grounding context placed in the prompt and the question. -/
  | llmCall (context : List Char) (question : List Char)
  /-- Effect `FAISS.load_local` on the given path. -/
  | loadStore (path : List Char)
  /-- Effect `save_local` on the given path. -/
  | saveStore (path : List Char)
  /-- A file written to disk (`open(path, 'w')`). -/
  | writeFile (path : List Char) (content : List Char)
deriving Repr, DecidableEq

/-! ## RAG engine (`src/agents/rag_engine.py`) -/

/-- The mutable state of a `RAGEngine` instance that the embedded methods
read and write: the optional in-memory FAISS store
(`self.vector_store`, initially `None`). -/
structure EngineState where
  vector_store : Option VectorStore
deriving Repr, DecidableEq

/-- Constant `self.vector_store_path` (set in `__init__`). -/
def vector_store_path : List Char := "./vector_stores".data

/-- Path `os.path.join(self.vector_store_path, f"user_{user_id}")`. -/
def user_store_path (user_id : List Char) : List Char :=
  vector_store_path ++ "/user_".data ++ user_id

/-- External collaborators of the RAG engine: the text splitter, the
FAISS backend (build / save / load / search / incremental add), the
chain's LLM and the direct Gemini model used for suggestions.  Fallible
operations return `Except PyErr`. -/
structure RagEnv where
  /-- Operation `self.text_splitter.split_documents` (pure chunking). -/
  split_documents : List Document → List Document
  /-- Operation `FAISS.from_documents` (embeds chunks; network-fallible). -/
  faiss_from_documents : List Document → Except PyErr VectorStore
  /-- Operation `store.save_local(path)`. -/
  save_local : VectorStore → List Char → Except PyErr Unit
  /-- Operation `os.path.exists(path)`. -/
  path_exists : List Char → Bool
  /-- Operation `FAISS.load_local(path, ...)`. -/
  load_local : List Char → Except PyErr VectorStore
  /-- Operation `store.similarity_search(query, k)`. -/
  similarity_search : VectorStore → List Char → Nat → List Document
  /-- Operation `store.add_documents(chunks)`: the store with the chunks appended,
  or a raised error. -/
  add_documents : VectorStore → List Document → Except PyErr VectorStore
  /-- The single LLM invocation performed by the RetrievalQA stuff chain,
  given the grounding context stuffed into the prompt's `context` slot
  and the question. -/
  chain_llm : List Char → List Char → Except PyErr (List Char)
  /-- Operation `genai.GenerativeModel('gemini-2.5-flash').generate_content(prompt).text`
  used by `get_suggestions`. -/
  suggestions_model : List Char → Except PyErr (List Char)

/-- The serialised "meaningful job description" test of
`ingest_documents` line 113 and `get_suggestions` line 357:
`job_description and len(job_description.strip()) > 50`
(Python truthiness: the empty string is falsy). -/
def meaningful_jd (job_description : List Char) : Bool :=
  !job_description.isEmpty && decide ((stripChars job_description).length > 50)

/-- The resume document of `ingest_documents` lines 101–110. -/
def resumeDoc (resume_text user_id : List Char) : Document :=
  { page_content := resume_text, source := some "resume".data,
    user_id := user_id, dtype := "resume".data }

/-- The job-description document of `ingest_documents` lines 114–123. -/
def jdDoc (job_description user_id : List Char) : Document :=
  { page_content := job_description, source := some "job_description".data,
    user_id := user_id, dtype := "jd".data }

/-- The `documents` list built by `ingest_documents` lines 100–126
together with the `has_jd` flag: the resume document always, the job
document only when the job text is meaningful. -/
def ingest_docs_list (resume_text job_description user_id : List Char) :
    List Document × Bool :=
  let documents : List Document := [resumeDoc resume_text user_id]
  if meaningful_jd job_description then
    (documents ++ [jdDoc job_description user_id], true)
  else
    (documents, false)

/-- Result dictionary of `ingest_documents`. -/
structure IngestResult where
  success : Bool
  chunks_created : Option Nat := none
  has_job_description : Option Bool := none
  vector_store_path : Option (List Char) := none
  message : List Char
  error : Option (List Char) := none
deriving Repr, DecidableEq

/-- Failure dictionary of `ingest_documents` (the `except` branch). -/
def ingestFail (e : PyErr) : IngestResult :=
  { success := false, error := some e,
    message := "Failed to ingest documents. Check GEMINI_API_KEY.".data }

/-- Success message of `ingest_documents`, conditional on `has_jd`. -/
def ingestOkMsg (has_jd : Bool) : List Char :=
  "Resume ingested successfully! ".data ++
    (if has_jd then "Job description also added.".data
     else "Add a job description for better tailoring.".data)

/-- Embeds `RAGEngine.ingest_documents` (lines 86–155).  Inside the `try`
block: build the documents list, chunk it, build a fresh FAISS store,
assign it to `self.vector_store`, then save it to disk; any raised
exception is caught and turned into a failure dictionary.  Note the
assignment happens *before* the save, so a failing save leaves the new
store in memory. -/
def ingest_documents (env : RagEnv) (st : EngineState)
    (resume_text job_description user_id : List Char) :
    EngineState × IngestResult × List Event :=
  let dl := ingest_docs_list resume_text job_description user_id
  let documents := dl.1
  let has_jd := dl.2
  let chunks := env.split_documents documents
  match env.faiss_from_documents chunks with
  | .error e => (st, ingestFail e, [])
  | .ok vs =>
    -- `self.vector_store = FAISS.from_documents(...)`
    let st' : EngineState := { vector_store := some vs }
    let store_path := user_store_path user_id
    match env.save_local vs store_path with
    | .error e => (st', ingestFail e, [Event.saveStore store_path])
    | .ok _ =>
      (st', { success := true, chunks_created := some chunks.length,
              has_job_description := some has_jd,
              vector_store_path := some store_path,
              message := ingestOkMsg has_jd },
       [Event.saveStore store_path])

/-- Embeds `RAGEngine.retrieve_context` (lines 158–174): raises `ValueError`
when no store is resident in memory — it never consults the disk — and
otherwise performs one similarity search. -/
def retrieve_context (env : RagEnv) (st : EngineState)
    (query : List Char) (k : Nat) :
    Except PyErr (List Document) × List Event :=
  match st.vector_store with
  | none =>
    (.error "Vector store not initialized. Call ingest_documents first.".data, [])
  | some vs =>
    (.ok (env.similarity_search vs query k), [Event.retrieve query k])

/-- Result dictionary of `generate_tailored_content`. -/
structure GenResult where
  success : Bool
  tailored_content : Option (List Char) := none
  source_documents : Option (List (List Char)) := none
  instruction : Option (List Char) := none
  error : Option (List Char) := none
  message : Option (List Char) := none
deriving Repr, DecidableEq

/-- The stuff chain's grounding context: the retrieved documents joined
with the default `"\n\n"` separator. -/
def joinDocs (docs : List Document) : List Char :=
  List.intercalate "\n\n".data (docs.map (·.page_content))

/-- The generation body of `generate_tailored_content` (lines 208–260),
run once a store `vs` is available.  Lines 209–213 compute a local
`context` — from `context_override` when that is truthy, otherwise from
`self.retrieve_context(instruction, k=5)` — but this local is **never
passed to the chain**: the `RetrievalQA` chain built on lines 244–250
retrieves its own top-5 documents for the query via
`self.vector_store.as_retriever(search_kwargs={"k": 5})` and grounds its
single LLM call on those (the stuff chain stuffs the retrieved
documents, joined by `"\n\n"`, into the prompt's `context` slot). -/
def gen_with_store (env : RagEnv) (vs : VectorStore)
    (instruction : List Char) (context_override : Option (List Char)) :
    GenResult × List Event :=
  -- lines 209–213: the dead local `context`
  let ctxPair : List Char × List Event :=
    match context_override with
    | some c =>
      if !c.isEmpty then (c, [])
      else (joinDocs (env.similarity_search vs instruction 5),
            [Event.retrieve instruction 5])
    | none =>
      (joinDocs (env.similarity_search vs instruction 5),
       [Event.retrieve instruction 5])
  -- lines 244–253: the chain retrieves again and makes the one LLM call
  let docs := env.similarity_search vs instruction 5
  let chainCtx := joinDocs docs
  let trace := ctxPair.2 ++ [Event.retrieve instruction 5,
                             Event.llmCall chainCtx instruction]
  match env.chain_llm chainCtx instruction with
  | .error e =>
    ({ success := false, error := some e,
       message := some "Failed to generate tailored content".data }, trace)
  | .ok out =>
    ({ success := true, tailored_content := some out,
       source_documents := some (docs.map (·.page_content.take 200)),
       instruction := some instruction }, trace)

/-- Embeds `RAGEngine.generate_tailored_content` (lines 177–267): when no store
is resident, try to load the user's persisted index from disk (lines
192–206) before generating; any exception is caught and reported as a
failure dictionary. -/
def generate_tailored_content (env : RagEnv) (st : EngineState)
    (instruction user_id : List Char)
    (context_override : Option (List Char)) :
    EngineState × GenResult × List Event :=
  match st.vector_store with
  | some vs =>
    let p := gen_with_store env vs instruction context_override
    (st, p.1, p.2)
  | none =>
    let store_path := user_store_path user_id
    if env.path_exists store_path then
      match env.load_local store_path with
      | .error e =>
        (st, { success := false, error := some e,
               message := some "Failed to generate tailored content".data },
         [Event.loadStore store_path])
      | .ok vs =>
        -- `self.vector_store = FAISS.load_local(...)`
        let st' : EngineState := { vector_store := some vs }
        let p := gen_with_store env vs instruction context_override
        (st', p.1, Event.loadStore store_path :: p.2)
    else
      (st, { success := false,
             error := some "Vector store not found. Please analyze documents first.".data,
             message := some "Call /api/rag/analyze first to ingest documents".data },
       [])

/-- Result dictionary of `learn_from_feedback`. -/
structure LearnResult where
  success : Bool
  message : Option (List Char) := none
  error : Option (List Char) := none
deriving Repr, DecidableEq

/-- The packed feedback document of `learn_from_feedback` lines 308–320
(an f-string triple-quoted block with a leading newline and trailing
indentation). -/
def feedback_doc (user_id instruction generated_content feedback : List Char)
    (rating : Nat) : Document :=
  { page_content :=
      "\nINSTRUCTION: ".data ++ instruction ++
      "\nGENERATED: ".data ++ generated_content ++
      "\nUSER FEEDBACK: ".data ++ feedback ++
      "\nRATING: ".data ++ (Nat.repr rating).data ++ "/5\n                ".data,
    user_id := user_id, dtype := "feedback".data, rating := some rating }

/-- Embeds `RAGEngine.learn_from_feedback` (lines 290–341): pack the feedback
block, and if a store is live, chunk and append it (a raised error from
`add_documents` is caught); with no live store it reports a soft
"Vector store not initialized" failure.  The whole body is inside
`try/except`, so the method never raises. -/
def learn_from_feedback (env : RagEnv) (st : EngineState)
    (user_id instruction generated_content feedback : List Char)
    (rating : Nat) : EngineState × LearnResult :=
  let fdoc := feedback_doc user_id instruction generated_content feedback rating
  match st.vector_store with
  | some vs =>
    let chunks := env.split_documents [fdoc]
    match env.add_documents vs chunks with
    | .ok vs' =>
      ({ vector_store := some vs' },
       { success := true,
         message := some "Feedback stored for continuous learning".data })
    | .error e => (st, { success := false, error := some e })
  | none =>
    (st, { success := false,
           message := some "Vector store not initialized".data })

/-! ### Suggestion generator (`get_suggestions`, lines 344–418) -/

/-- Apostrophe, spliced into prompt literals. -/
def apos : Char := Char.ofNat 39

/-- The job-alignment prompt of `get_suggestions` (the
`has_specific_jd` branch, lines 360–376), with the resume truncated to
3000 and the job description to 2000 characters. -/
def suggestionsPromptSpecific (resume_text job_description : List Char) : List Char :=
  "You are an expert resume coach. Analyze this resume against the job description and provide specific, actionable improvements.\n\nRESUME:\n".data ++
  resume_text.take 3000 ++
  "\n\nTARGET JOB DESCRIPTION:\n".data ++
  job_description.take 2000 ++
  "\n\nProvide exactly 5 specific, actionable suggestions. Each suggestion should:\n- Start with a clear action verb (Add, Quantify, Highlight, Reframe, Include)\n- Be specific to this resume".data ++
  [apos] ++
  "s content\n- Directly improve alignment with the job requirements\n\nFormat each suggestion as a single numbered line like:\n1. [Action] - [Specific recommendation]\n\nSUGGESTIONS:".data

/-- The general resume-quality prompt of `get_suggestions` (the branch
without a meaningful job description, lines 378–393). -/
def suggestionsPromptGeneral (resume_text : List Char) : List Char :=
  "You are an expert resume coach. Analyze this resume and provide specific improvements to make it stronger and more impactful.\n\nRESUME:\n".data ++
  resume_text.take 3000 ++
  "\n\nProvide exactly 5 specific, actionable suggestions to improve this resume. Focus on:\n- Adding quantifiable metrics and achievements\n- Strengthening action verbs\n- Improving professional impact\n- Highlighting transferable skills\n- Enhancing overall clarity and readability\n\nFormat each suggestion as a single numbered line like:\n1. [Action] - [Specific recommendation based on actual content in the resume]\n\nSUGGESTIONS:".data

/-- The prompt `get_suggestions` sends, chosen by the 50-character
meaningfulness threshold (line 357). -/
def suggestions_prompt (resume_text job_description : List Char) : List Char :=
  if meaningful_jd job_description then
    suggestionsPromptSpecific resume_text job_description
  else
    suggestionsPromptGeneral resume_text

/-- The character set of `line.lstrip('0123456789.-•) ')`. -/
def markerChars : List Char := "0123456789.-•) ".data

/-- Test `line and (line[0].isdigit() or line.startswith('-') or
line.startswith('•'))` on an already-stripped line. -/
def looksListLike (l : List Char) : Bool :=
  match l with
  | [] => false
  | c :: _ => c.isDigit || c = '-' || c = '•'

/-- One iteration of the parsing loop (lines 401–408): strip the line,
keep it only if it looks list-like and its marker-stripped form is
non-empty and longer than 10 characters. -/
def parseLine (line : List Char) : Option (List Char) :=
  let l := stripChars line
  if looksListLike l then
    let cleaned := stripChars (l.dropWhile (· ∈ markerChars))
    if !cleaned.isEmpty && decide (cleaned.length > 10) then some cleaned
    else none
  else none

/-- The response-parsing half of `get_suggestions` (lines 398–414):
collect list-like lines, fall back to all non-trivial lines when none
matched, and return at most five. -/
def parse_suggestions (text : List Char) : List (List Char) :=
  let raw_lines := splitLines (stripChars text)
  let suggestions := raw_lines.filterMap parseLine
  let suggestions :=
    if suggestions.isEmpty then
      (raw_lines.map stripChars).filter
        (fun s => !s.isEmpty && decide (s.length > 10))
    else suggestions
  suggestions.take 5

/-- Embeds `RAGEngine.get_suggestions` (lines 344–418): one model call on the
threshold-chosen prompt, lenient parsing of the response; a raised
exception is caught and replaced by a single explanatory entry, so the
method never raises. -/
def get_suggestions (env : RagEnv) (resume_text job_description : List Char) :
    List (List Char) :=
  match env.suggestions_model (suggestions_prompt resume_text job_description) with
  | .ok t => parse_suggestions t
  | .error e =>
    ["Unable to generate suggestions: ".data ++ e ++
     ". Please check your GEMINI_API_KEY.".data]

/-! ### RAG resume agent (`src/agents/rag_resume_agent.py`) -/

/-- The refined instruction built by `interactive_refinement` line 192:
`f"{previous_instruction}\n\nUser Feedback: {feedback}\n\nPlease improve
based on this feedback."`. -/
def refined_instruction (previous_instruction feedback : List Char) : List Char :=
  previous_instruction ++ "\n\nUser Feedback: ".data ++ feedback ++
    "\n\nPlease improve based on this feedback.".data

/-- Result dictionary of `interactive_refinement`. -/
structure RefineResult where
  learning_status : LearnResult
  refined_content : GenResult
  improvement_applied : Bool
deriving Repr, DecidableEq

/-- Embeds `RAGResumeAgent.interactive_refinement` (lines 166–202): first store
the feedback via `learn_from_feedback`, then re-invoke
`generate_tailored_content` with the refined instruction, and return
both results. -/
def interactive_refinement (env : RagEnv) (st : EngineState)
    (user_id feedback : List Char) (rating : Nat)
    (previous_instruction previous_content : List Char) :
    EngineState × RefineResult × List Event :=
  let lp :=
    learn_from_feedback env st user_id previous_instruction previous_content
      feedback rating
  let refined := refined_instruction previous_instruction feedback
  let gp := generate_tailored_content env lp.1 refined user_id none
  (gp.1, { learning_status := lp.2, refined_content := gp.2.1,
           improvement_applied := true }, gp.2.2)

/-! ## Analysis pipeline
(`job_analyzer.py`, `resume_analyzer.py`, `strategy_creator.py`,
`resume_generator.py`) -/

/-- External collaborators of the four analysis/generation agents.  Each
stage builds a fixed prompt literal around its inputs and calls
`self.model.generate_content` once; since no claim depends on the
wording of those prompts, prompt construction and model call are
modelled as one oracle per stage.  `json_loads` is the strict JSON parse
applied to the fence-stripped response. -/
structure PipeEnv where
  /-- The model call of `analyze_job_description` on the job prompt
  built from the given job-description text. -/
  job_model : List Char → Except PyErr (List Char)
  /-- The model call of `analyze_resume` on the resume prompt. -/
  resume_model : List Char → Except PyErr (List Char)
  /-- The model call of `create_matching_strategy` on the strategy
  prompt built from the serialised job analysis and resume data. -/
  strategy_model : PyVal → PyVal → Except PyErr (List Char)
  /-- The model call of `generate_tailored_resume` on the rendering
  prompt built from (resume_data, job_analysis, strategy). -/
  render_model : PyVal → PyVal → PyVal → Except PyErr (List Char)
  /-- Operation `json.loads` on cleaned response text. -/
  json_loads : List Char → Except PyErr PyVal
  /-- Operation `json.dump` serialisation of the analysis snapshot. -/
  dump_analysis : PyVal → PyVal → PyVal → List Char
  /-- Constant `os.path.dirname(__file__)` of `resume_generator.py`. -/
  agents_dir : List Char

/-- Embeds `JobAnalyzerAgent.analyze_job_description` (lines 21–60 of
`job_analyzer.py`): one model call, strip fences, strict JSON parse; a
failure of either raises (the `except` branch re-raises). -/
def analyze_job_description (env : PipeEnv) (job_description : List Char) :
    Except PyErr PyVal := do
  let t ← env.job_model job_description
  env.json_loads (stripJsonFences t)

/-- Embeds `ResumeAgent.analyze_resume` (lines 28–127 of
`resume_analyzer.py`): same single-call, strip-fences, strict-parse
contract; failure raises. -/
def analyze_resume (env : PipeEnv) (resume_text : List Char) :
    Except PyErr PyVal := do
  let t ← env.resume_model resume_text
  env.json_loads (stripJsonFences t)

/-- Embeds `StrategyAgent.create_matching_strategy` (lines 28–168 of
`strategy_creator.py`): one model call on both records, strip fences,
strict parse; failure raises. -/
def create_matching_strategy (env : PipeEnv) (job_analysis resume_data : PyVal) :
    Except PyErr PyVal := do
  let t ← env.strategy_model job_analysis resume_data
  env.json_loads (stripJsonFences t)

/-- The record returned by `run_complete_analysis` (lines 207–211 of
`strategy_creator.py`). -/
structure AnalysisOut where
  job_analysis : PyVal
  resume_data : PyVal
  strategy : PyVal

/-- Embeds `StrategyAgent.run_complete_analysis` (lines 171–211): the three
stages strictly in sequence — a raised exception propagates and aborts
the rest — returning the three stage outputs unmodified.  The trace
records which stages were invoked. -/
def run_complete_analysis (env : PipeEnv) (job_description resume_text : List Char) :
    Except PyErr AnalysisOut × List Event :=
  match analyze_job_description env job_description with
  | .error e => (.error e, [Event.stageJob])
  | .ok job_analysis =>
    match analyze_resume env resume_text with
    | .error e => (.error e, [Event.stageJob, Event.stageResume])
    | .ok resume_data =>
      match create_matching_strategy env job_analysis resume_data with
      | .error e => (.error e, [Event.stageJob, Event.stageResume, Event.stageStrategy])
      | .ok strategy =>
        (.ok { job_analysis := job_analysis, resume_data := resume_data,
               strategy := strategy },
         [Event.stageJob, Event.stageResume, Event.stageStrategy])

/-- Embeds `ResumeGeneratorAgent.generate_tailored_resume` (lines 37–171 of
`resume_generator.py`): one model call on the rendering prompt; on
success the response is fence-stripped and substituted for the
`{{CONTENT}}` placeholder of the loaded template by
`self.latex_template.replace('{{CONTENT}}', latex_content)`; a model
failure is re-raised (`raise` in the `except` branch).  The instance's
`self.latex_template` is passed explicitly. -/
def generate_tailored_resume (env : PipeEnv) (latex_template : List Char)
    (resume_data strategy job_analysis : PyVal) :
    Except PyErr (List Char) × List Event :=
  (match env.render_model resume_data job_analysis strategy with
   | .error e => .error e
   | .ok response =>
     .ok (pyReplace latex_template placeholderL (cleanLatex response)),
   [Event.stageRender])

/-- Embeds `ResumeGeneratorAgent.run_complete_pipeline` (lines 174–242): run
the three analysis stages, then the renderer, then write the rendered
`.tex` file and the sibling `_analysis.json` snapshot.  A raised
exception at any stage propagates, so no later stage runs and no file
is written. -/
def run_complete_pipeline (env : PipeEnv) (latex_template : List Char)
    (job_description resume_text output_filename : List Char) :
    Except PyErr (List Char) × List Event :=
  let ap := run_complete_analysis env job_description resume_text
  let ev := ap.2
  match ap.1 with
  | .error e => (.error e, ev)
  | .ok analysis =>
    let rp :=
      generate_tailored_resume env latex_template analysis.resume_data
        analysis.strategy analysis.job_analysis
    let ev2 := rp.2
    match rp.1 with
    | .error e => (.error e, ev ++ ev2)
    | .ok tailored_resume =>
      let output_path := env.agents_dir ++ "/".data ++ output_filename
      let analysis_file := pyReplace output_filename ".tex".data "_analysis.json".data
      (.ok output_path,
       ev ++ ev2 ++
       [Event.writeFile output_path tailored_resume,
        Event.writeFile analysis_file
          (env.dump_analysis analysis.job_analysis analysis.resume_data
            analysis.strategy)])

/-! ## Concrete environments used to instantiate the theorems -/

/-- A benign RAG environment: chunking is the identity, the index is the
chunk list, search returns the first `k` chunks, every external call
succeeds. -/
def ragEnvA : RagEnv where
  split_documents := fun ds => ds
  faiss_from_documents := fun chunks => .ok ⟨chunks⟩
  save_local := fun _ _ => .ok ()
  path_exists := fun _ => true
  load_local := fun _ => .ok ⟨[]⟩
  similarity_search := fun vs _ k => vs.docs.take k
  add_documents := fun vs chunks => .ok ⟨vs.docs ++ chunks⟩
  chain_llm := fun _ _ => .ok "GENERATED OUTPUT".data
  suggestions_model := fun _ => .ok "no suggestions whatsoever here".data

/-- Environment `ragEnvA` with a failing disk save. -/
def ragEnvSaveFail : RagEnv :=
  { ragEnvA with save_local := fun _ _ => .error "disk full".data }

/-- A benign pipeline environment: each stage's model returns a fixed
canned response and `json_loads` wraps the cleaned text as a JSON
string. -/
def pipeEnvA : PipeEnv where
  job_model := fun _ => .ok "JOBJSON".data
  resume_model := fun _ => .ok "RESJSON".data
  strategy_model := fun _ _ => .ok "STRATJSON".data
  render_model := fun _ _ _ => .ok "X".data
  json_loads := fun s => .ok (PyVal.str s)
  dump_analysis := fun _ _ _ => "SNAPSHOT".data
  agents_dir := "AGENTS".data

/-- Environment `pipeEnvA` with a failing resume extraction (second extractor
call). -/
def pipeEnvResumeFail : PipeEnv :=
  { pipeEnvA with resume_model := fun _ => .error "quota exceeded".data }

/-- Environment `pipeEnvA` with a renderer response `ZQJ` (a string that occurs
nowhere in the templates used with it). -/
def pipeEnvZ : PipeEnv :=
  { pipeEnvA with render_model := fun _ _ _ => .ok "ZQJ".data }

/-- A template with two placeholder occurrences. -/
def tmplTwo : List Char :=
  "A".data ++ placeholderL ++ "B".data ++ placeholderL ++ "C".data

/-! # Theorems -/

/-- C3: if the resume extraction (the second extractor call) fails, then
`run_complete_analysis` raises — so no `TailoringStrategy` is produced
and the strategy stage is never invoked — and `run_complete_pipeline`
raises as well, never invoking the renderer and writing no output file
(neither the rendered `.tex` nor the `_analysis.json` snapshot). -/
theorem c3_resume_failure_aborts_pipeline (env : PipeEnv)
    (latex_template jd rt fn : List Char) (err : PyErr)
    (h : analyze_resume env rt = .error err) :
    (∃ e, (run_complete_analysis env jd rt).1 = .error e)
    ∧ Event.stageStrategy ∉ (run_complete_analysis env jd rt).2
    ∧ (∃ e, (run_complete_pipeline env latex_template jd rt fn).1 = .error e)
    ∧ Event.stageRender ∉ (run_complete_pipeline env latex_template jd rt fn).2
    ∧ ∀ p c, Event.writeFile p c ∉ (run_complete_pipeline env latex_template jd rt fn).2 := by
  rcases hj : analyze_job_description env jd with e | ja
  · simp [run_complete_analysis, run_complete_pipeline, hj]
  · simp [run_complete_analysis, run_complete_pipeline, hj, h]

/-- C3 witness: a concrete pipeline whose resume-extraction model call
fails with a quota error. -/
theorem c3_witness :
    (∃ e, (run_complete_analysis pipeEnvResumeFail "J".data "R".data).1 = .error e)
    ∧ Event.stageStrategy ∉ (run_complete_analysis pipeEnvResumeFail "J".data "R".data).2
    ∧ (∃ e, (run_complete_pipeline pipeEnvResumeFail "T".data "J".data "R".data "out.tex".data).1 = .error e)
    ∧ Event.stageRender ∉ (run_complete_pipeline pipeEnvResumeFail "T".data "J".data "R".data "out.tex".data).2
    ∧ ∀ p c, Event.writeFile p c ∉ (run_complete_pipeline pipeEnvResumeFail "T".data "J".data "R".data "out.tex".data).2 :=
  c3_resume_failure_aborts_pipeline pipeEnvResumeFail "T".data "J".data "R".data
    "out.tex".data "quota exceeded".data rfl

/-- C5: `run_complete_analysis` invokes exactly the three stages in the
order job analysis, resume analysis, strategy synthesis, and returns the
three stage outputs unmodified as its `job_analysis`, `resume_data` and
`strategy` fields. -/
theorem c5_analysis_order_and_passthrough (env : PipeEnv) (jd rt : List Char)
    (ja rd st : PyVal)
    (h1 : analyze_job_description env jd = .ok ja)
    (h2 : analyze_resume env rt = .ok rd)
    (h3 : create_matching_strategy env ja rd = .ok st) :
    run_complete_analysis env jd rt =
      (.ok { job_analysis := ja, resume_data := rd, strategy := st },
       [Event.stageJob, Event.stageResume, Event.stageStrategy]) := by
  simp [run_complete_analysis, h1, h2, h3]

/-- C5 witness: canned stage responses flow through unmodified. -/
theorem c5_witness :
    run_complete_analysis pipeEnvA "JOB TEXT".data "RESUME TEXT".data =
      (.ok { job_analysis := PyVal.str "JOBJSON".data,
             resume_data := PyVal.str "RESJSON".data,
             strategy := PyVal.str "STRATJSON".data },
       [Event.stageJob, Event.stageResume, Event.stageStrategy]) :=
  c5_analysis_order_and_passthrough pipeEnvA "JOB TEXT".data "RESUME TEXT".data
    (PyVal.str "JOBJSON".data) (PyVal.str "RESJSON".data)
    (PyVal.str "STRATJSON".data) rfl rfl rfl

/-- C8: `interactive_refinement` always performs both halves — it stores
the feedback (soft-failing with "Vector store not initialized", never
raising, when no index is live) and then re-invokes generation with the
refined instruction (the original instruction, the feedback text, and
the fixed improve directive appended), returning both results.  When
the learning half soft-fails the generation half is still attempted on
the unchanged state. -/
theorem c8_refinement_attempts_both_halves (env : RagEnv) (st : EngineState)
    (uid fb pi pc : List Char) (rating : Nat) :
    (interactive_refinement env st uid fb rating pi pc =
      ((generate_tailored_content env
          (learn_from_feedback env st uid pi pc fb rating).1
          (refined_instruction pi fb) uid none).1,
       { learning_status := (learn_from_feedback env st uid pi pc fb rating).2,
         refined_content :=
           (generate_tailored_content env
              (learn_from_feedback env st uid pi pc fb rating).1
              (refined_instruction pi fb) uid none).2.1,
         improvement_applied := true },
       (generate_tailored_content env
          (learn_from_feedback env st uid pi pc fb rating).1
          (refined_instruction pi fb) uid none).2.2))
    ∧ refined_instruction pi fb =
        pi ++ "\n\nUser Feedback: ".data ++ fb ++
          "\n\nPlease improve based on this feedback.".data
    ∧ (st.vector_store = none →
        learn_from_feedback env st uid pi pc fb rating =
          (st, { success := false,
                 message := some "Vector store not initialized".data })
        ∧ (interactive_refinement env st uid fb rating pi pc).2.1.refined_content =
            (generate_tailored_content env st (refined_instruction pi fb) uid none).2.1) := by
  refine ⟨rfl, rfl, fun h => ⟨?_, ?_⟩⟩
  · simp [learn_from_feedback, h]
  · simp [interactive_refinement, learn_from_feedback, h]

/-- C8 witness: refinement on an engine with no live index — learning
soft-fails, generation is still attempted. -/
theorem c8_witness :
    learn_from_feedback ragEnvA ⟨none⟩ "u1".data "inst".data "gen".data "fb".data 4 =
      (⟨none⟩, { success := false,
                 message := some "Vector store not initialized".data })
    ∧ (interactive_refinement ragEnvA ⟨none⟩ "u1".data "fb".data 4 "inst".data "gen".data).2.1.refined_content =
        (generate_tailored_content ragEnvA ⟨none⟩
          (refined_instruction "inst".data "fb".data) "u1".data none).2.1 :=
  (c8_refinement_attempts_both_halves ragEnvA ⟨none⟩ "u1".data "fb".data
    "inst".data "gen".data 4).2.2 rfl

/-- C9: `retrieve_context` raises whenever no vector store is resident in
memory, performing no disk access at all (its trace is empty, in
particular it contains no `loadStore`, whatever `os.path.exists` would
say); the disk-load fallback exists only inside
`generate_tailored_content`, which does load the persisted index in the
same situation. -/
theorem c9_retrieve_requires_resident_store (env : RagEnv) (st : EngineState)
    (query instr uid : List Char) (k : Nat)
    (h : st.vector_store = none) :
    (retrieve_context env st query k).1 =
      .error "Vector store not initialized. Call ingest_documents first.".data
    ∧ (retrieve_context env st query k).2 = []
    ∧ (env.path_exists (user_store_path uid) = true →
        Event.loadStore (user_store_path uid) ∈
          (generate_tailored_content env st instr uid none).2.2) := by
  refine ⟨by simp [retrieve_context, h], by simp [retrieve_context, h], fun hp => ?_⟩
  rcases hl : env.load_local (user_store_path uid) with e | vs <;>
    simp [generate_tailored_content, h, hp, hl]

/-- C9 witness: an engine with no resident store but a loadable on-disk
index for the user. -/
theorem c9_witness :
    (retrieve_context ragEnvA ⟨none⟩ "query".data 5).1 =
      .error "Vector store not initialized. Call ingest_documents first.".data
    ∧ (retrieve_context ragEnvA ⟨none⟩ "query".data 5).2 = []
    ∧ Event.loadStore (user_store_path "u1".data) ∈
        (generate_tailored_content ragEnvA ⟨none⟩ "inst".data "u1".data none).2.2 := by
  have h := c9_retrieve_requires_resident_store ragEnvA ⟨none⟩ "query".data
    "inst".data "u1".data 5 rfl
  exact ⟨h.1, h.2.1, h.2.2 rfl⟩

/-- C10: `ingest_documents` assigns the freshly built index to
`self.vector_store` before saving it to disk; when the save fails the
call reports failure but the in-memory index has already been replaced
by the new store — ingestion is not atomic in the engine state. -/
theorem c10_ingest_not_atomic_on_save_failure (env : RagEnv) (st : EngineState)
    (resume jd uid : List Char) (vs : VectorStore) (e : PyErr)
    (hbuild : env.faiss_from_documents
        (env.split_documents (ingest_docs_list resume jd uid).1) = .ok vs)
    (hsave : env.save_local vs (user_store_path uid) = .error e) :
    (ingest_documents env st resume jd uid).2.1 = ingestFail e
    ∧ (ingest_documents env st resume jd uid).2.1.success = false
    ∧ (ingest_documents env st resume jd uid).1.vector_store = some vs := by
  simp [ingest_documents, hbuild, hsave, ingestFail]

/-- C10 witness: a concrete ingest whose disk save fails; the failure
dictionary is returned while the new one-chunk store is resident. -/
theorem c10_witness :
    (ingest_documents ragEnvSaveFail ⟨none⟩ "MY RESUME".data [] "u1".data).2.1 =
      ingestFail "disk full".data
    ∧ (ingest_documents ragEnvSaveFail ⟨none⟩ "MY RESUME".data [] "u1".data).2.1.success = false
    ∧ (ingest_documents ragEnvSaveFail ⟨none⟩ "MY RESUME".data [] "u1".data).1.vector_store =
        some ⟨[resumeDoc "MY RESUME".data "u1".data]⟩ :=
  c10_ingest_not_atomic_on_save_failure ragEnvSaveFail ⟨none⟩ "MY RESUME".data []
    "u1".data _ "disk full".data rfl rfl

/-- The meaningfulness test only depends on the trimmed length. -/
theorem meaningful_jd_false_of_le (jd : List Char)
    (h : (stripChars jd).length ≤ 50) : meaningful_jd jd = false := by
  have hd : decide ((stripChars jd).length > 50) = false :=
    decide_eq_false (by omega)
  simp [meaningful_jd, hd]

/-- The meaningfulness test holds at trimmed length 51. -/
theorem meaningful_jd_true_of_51 (jd : List Char)
    (h : (stripChars jd).length = 51) : meaningful_jd jd = true := by
  cases jd with
  | nil => simp [stripChars] at h
  | cons c rest =>
    have hd : decide ((stripChars (c :: rest)).length > 50) = true :=
      decide_eq_true (by omega)
    simp [meaningful_jd, hd]

/-- C4: a job/feedback text of trimmed length at most 50 is treated as
not present — ingestion builds only the resume document, still succeeds
(when the index build and save succeed) with `has_job_description`
false, and `get_suggestions` frames its prompt as general resume-quality
improvement; a trimmed length of exactly 51 is treated as present by
both (two-document ingestion with `has_job_description` true, and the
job-alignment suggestion prompt). -/
theorem c4_threshold_boundary (env : RagEnv) (st : EngineState)
    (resume uid jd50 jd51 : List Char)
    (h50 : (stripChars jd50).length ≤ 50)
    (h51 : (stripChars jd51).length = 51) :
    (ingest_docs_list resume jd50 uid).1 = [resumeDoc resume uid]
    ∧ (ingest_docs_list resume jd50 uid).2 = false
    ∧ ingest_documents env st resume jd50 uid = ingest_documents env st resume [] uid
    ∧ (∀ vs, env.faiss_from_documents
          (env.split_documents (ingest_docs_list resume jd50 uid).1) = .ok vs →
        env.save_local vs (user_store_path uid) = .ok () →
        (ingest_documents env st resume jd50 uid).2.1.success = true
        ∧ (ingest_documents env st resume jd50 uid).2.1.has_job_description = some false)
    ∧ suggestions_prompt resume jd50 = suggestionsPromptGeneral resume
    ∧ (ingest_docs_list resume jd51 uid).1 = [resumeDoc resume uid, jdDoc jd51 uid]
    ∧ (ingest_docs_list resume jd51 uid).2 = true
    ∧ (∀ vs, env.faiss_from_documents
          (env.split_documents (ingest_docs_list resume jd51 uid).1) = .ok vs →
        env.save_local vs (user_store_path uid) = .ok () →
        (ingest_documents env st resume jd51 uid).2.1.success = true
        ∧ (ingest_documents env st resume jd51 uid).2.1.has_job_description = some true)
    ∧ suggestions_prompt resume jd51 = suggestionsPromptSpecific resume jd51 := by
  have m50 := meaningful_jd_false_of_le jd50 h50
  have m51 := meaningful_jd_true_of_51 jd51 h51
  have hdl50 : ingest_docs_list resume jd50 uid = ([resumeDoc resume uid], false) := by
    simp [ingest_docs_list, m50]
  have hdl51 : ingest_docs_list resume jd51 uid =
      ([resumeDoc resume uid, jdDoc jd51 uid], true) := by
    simp [ingest_docs_list, m51]
  have hdlnil : ingest_docs_list resume [] uid = ([resumeDoc resume uid], false) := by
    simp [ingest_docs_list, meaningful_jd]
  refine ⟨by rw [hdl50], by rw [hdl50], ?_, ?_, ?_, by rw [hdl51], by rw [hdl51], ?_, ?_⟩
  · simp only [ingest_documents, hdl50, hdlnil]
  · intro vs hb hs
    rw [hdl50] at hb
    constructor <;> simp [ingest_documents, hdl50, hb, hs]
  · simp [suggestions_prompt, m50]
  · intro vs hb hs
    rw [hdl51] at hb
    constructor <;> simp [ingest_documents, hdl51, hb, hs]
  · simp [suggestions_prompt, m51]

/-- C4 witness: boundary inputs of trimmed lengths exactly 50 and 51. -/
theorem c4_witness :
    (ingest_documents ragEnvA ⟨none⟩ "MY RESUME".data (List.replicate 50 'A') "u1".data).2.1.success = true
    ∧ (ingest_documents ragEnvA ⟨none⟩ "MY RESUME".data (List.replicate 50 'A') "u1".data).2.1.has_job_description = some false
    ∧ suggestions_prompt "MY RESUME".data (List.replicate 50 'A') =
        suggestionsPromptGeneral "MY RESUME".data
    ∧ (ingest_documents ragEnvA ⟨none⟩ "MY RESUME".data (List.replicate 51 'B') "u1".data).2.1.success = true
    ∧ (ingest_documents ragEnvA ⟨none⟩ "MY RESUME".data (List.replicate 51 'B') "u1".data).2.1.has_job_description = some true
    ∧ suggestions_prompt "MY RESUME".data (List.replicate 51 'B') =
        suggestionsPromptSpecific "MY RESUME".data (List.replicate 51 'B') := by
  have h := c4_threshold_boundary ragEnvA ⟨none⟩ "MY RESUME".data "u1".data
    (List.replicate 50 'A') (List.replicate 51 'B') (by decide) (by decide)
  have h50 := h.2.2.2.1 ⟨[resumeDoc "MY RESUME".data "u1".data]⟩ rfl rfl
  have h51 := h.2.2.2.2.2.2.2.1
    ⟨[resumeDoc "MY RESUME".data "u1".data,
      jdDoc (List.replicate 51 'B') "u1".data]⟩ rfl rfl
  exact ⟨h50.1, h50.2, h.2.2.2.2.1, h51.1, h51.2, h.2.2.2.2.2.2.2.2⟩

/-- A line kept by the list-like parsing loop is longer than 10
characters. -/
theorem parseLine_length (line s : List Char) (h : parseLine line = some s) :
    10 < s.length := by
  simp only [parseLine] at h
  by_cases h1 : looksListLike (stripChars line)
  · rw [if_pos h1] at h
    by_cases h2 :
        (!(stripChars ((stripChars line).dropWhile (· ∈ markerChars))).isEmpty
          && decide ((stripChars ((stripChars line).dropWhile (· ∈ markerChars))).length > 10)) = true
    · rw [if_pos h2] at h
      cases h
      exact of_decide_eq_true ((Bool.and_eq_true _ _).mp h2).2
    · rw [if_neg h2] at h
      cases h
  · rw [if_neg h1] at h
    cases h

/-- A line that does not look list-like is dropped by the parsing loop. -/
theorem parseLine_none (line : List Char)
    (h : looksListLike (stripChars line) = false) : parseLine line = none := by
  simp [parseLine, h]

/-- C7: for every model response, including malformed ones and failing
calls, `get_suggestions` returns at most 5 entries, never one shorter
than 10 characters after marker-stripping, and when no response line
looks list-like it falls back to treating every non-trivial line as a
suggestion; the embedding is a total function (the `except` branch
returns an explanatory singleton), so the method never raises. -/
theorem c7_suggestions_bounds (env : RagEnv) (resume jd : List Char) :
    (get_suggestions env resume jd).length ≤ 5
    ∧ (∀ s ∈ get_suggestions env resume jd, 10 ≤ s.length)
    ∧ (∀ t, env.suggestions_model (suggestions_prompt resume jd) = .ok t →
        (∀ l ∈ splitLines (stripChars t), looksListLike (stripChars l) = false) →
        get_suggestions env resume jd =
          (((splitLines (stripChars t)).map stripChars).filter
            (fun s => !s.isEmpty && decide (s.length > 10))).take 5) := by
  rcases hm : env.suggestions_model (suggestions_prompt resume jd) with e | t
  · refine ⟨?_, ?_, ?_⟩
    · simp [get_suggestions, hm]
    · intro s hs
      simp only [get_suggestions, hm, List.mem_singleton] at hs
      subst hs
      have h32 : 10 ≤ ("Unable to generate suggestions: ".data).length := by decide
      simp only [List.length_append]
      exact le_trans (le_trans h32 (Nat.le_add_right _ _)) (Nat.le_add_right _ _)
    · intro t ht
      simp at ht
  · have hg : get_suggestions env resume jd = parse_suggestions t := by
      simp [get_suggestions, hm]
    refine ⟨?_, ?_, ?_⟩
    · rw [hg]
      exact List.length_take_le 5 _
    · intro s hs
      rw [hg] at hs
      simp only [parse_suggestions] at hs
      have hs' := List.mem_of_mem_take hs
      by_cases he : ((splitLines (stripChars t)).filterMap parseLine).isEmpty
      · rw [if_pos he] at hs'
        rcases List.mem_filter.mp hs' with ⟨_, hp⟩
        have := (Bool.and_eq_true _ _).mp hp
        have := of_decide_eq_true this.2
        omega
      · rw [if_neg he] at hs'
        rcases List.mem_filterMap.mp hs' with ⟨a, _, ha⟩
        have := parseLine_length a s ha
        omega
    · intro t' hok hnol
      injection hok with hteq
      subst hteq
      have hnil : (splitLines (stripChars t)).filterMap parseLine = [] := by
        apply List.filterMap_eq_nil_iff.mpr
        intro a ha
        exact parseLine_none a (hnol a ha)
      rw [hg]
      simp [parse_suggestions, hnil]

/-- C7 witness: a canned response none of whose lines looks list-like,
parsed through the fallback path. -/
theorem c7_witness :
    (get_suggestions ragEnvA "R".data "JD".data).length ≤ 5
    ∧ (∀ l ∈ splitLines (stripChars "no suggestions whatsoever here".data),
        looksListLike (stripChars l) = false)
    ∧ get_suggestions ragEnvA "R".data "JD".data =
        (((splitLines (stripChars "no suggestions whatsoever here".data)).map stripChars).filter
          (fun s => !s.isEmpty && decide (s.length > 10))).take 5 := by
  have h := c7_suggestions_bounds ragEnvA "R".data "JD".data
  exact ⟨h.1, by decide,
    h.2.2 "no suggestions whatsoever here".data rfl (by decide)⟩

/-- The fuel of `pyReplaceFuel` is irrelevant once it covers the input
length. -/
theorem pyReplaceFuel_eq_of_le (f1 : Nat) : ∀ (f2 : Nat) (s pat rep : List Char),
    s.length ≤ f1 → s.length ≤ f2 →
    pyReplaceFuel f1 s pat rep = pyReplaceFuel f2 s pat rep := by
  induction f1 with
  | zero =>
    intro f2 s pat rep h1 _
    have hs : s = [] := List.eq_nil_of_length_eq_zero (Nat.le_zero.mp h1)
    subst hs
    cases f2 <;> rfl
  | succ f ih =>
    intro f2 s pat rep h1 h2
    cases s with
    | nil => cases f2 <;> rfl
    | cons c rest =>
      cases f2 with
      | zero => simp at h2
      | succ g =>
        simp only [pyReplaceFuel]
        simp only [List.length_cons] at h1 h2
        by_cases hc : pat ≠ [] ∧ pat.isPrefixOf (c :: rest)
        · rw [if_pos hc, if_pos hc]
          have hp : 0 < pat.length := List.length_pos.mpr hc.1
          have hd1 : ((c :: rest).drop pat.length).length ≤ f := by
            simp only [List.length_drop, List.length_cons]; omega
          have hd2 : ((c :: rest).drop pat.length).length ≤ g := by
            simp only [List.length_drop, List.length_cons]; omega
          rw [ih g _ pat rep hd1 hd2]
        · rw [if_neg hc, if_neg hc]
          rw [ih g rest pat rep (by omega) (by omega)]

/-- Unfolding equation for `pyReplace` on a non-empty string. -/
theorem pyReplace_cons (c : Char) (rest pat rep : List Char) :
    pyReplace (c :: rest) pat rep =
      if pat ≠ [] ∧ pat.isPrefixOf (c :: rest) then
        rep ++ pyReplace ((c :: rest).drop pat.length) pat rep
      else c :: pyReplace rest pat rep := by
  show pyReplaceFuel (c :: rest).length (c :: rest) pat rep = _
  simp only [List.length_cons, pyReplaceFuel]
  by_cases hc : pat ≠ [] ∧ pat.isPrefixOf (c :: rest)
  · rw [if_pos hc, if_pos hc]
    have hp : 0 < pat.length := List.length_pos.mpr hc.1
    congr 1
    exact pyReplaceFuel_eq_of_le rest.length _ _ pat rep
      (by simp only [List.length_drop, List.length_cons]; omega) le_rfl
  · rw [if_neg hc, if_neg hc]
    rfl

/-- Lemma: `str.replace` is the identity when the pattern does not occur. -/
theorem pyReplace_of_hasOccur_eq_false (s pat rep : List Char)
    (h : hasOccur s pat = false) : pyReplace s pat rep = s := by
  induction s with
  | nil => rfl
  | cons c rest ih =>
    simp only [hasOccur, Bool.or_eq_false_iff] at h
    rw [pyReplace_cons, if_neg (by simp [h.1]), ih h.2]

/-- Lemma: `str.replace` fires on a pattern occurring at the head. -/
theorem pyReplace_head (pat suf rep : List Char) (hp : pat ≠ []) :
    pyReplace (pat ++ suf) pat rep = rep ++ pyReplace suf pat rep := by
  cases pat with
  | nil => exact absurd rfl hp
  | cons p pt =>
    rw [List.cons_append, pyReplace_cons]
    have hpre : (p :: pt).isPrefixOf (p :: (pt ++ suf)) = true := by
      rw [ List.isPrefixOf_iff_prefix]
      exact ⟨suf, by simp⟩
    rw [if_pos ⟨hp, hpre⟩]
    have hd : (p :: (pt ++ suf)).drop (p :: pt).length = suf := by
      rw [← List.cons_append]
      exact List.drop_left _ _
    rw [hd]

/-- The scan of `str.replace` passes a match-free prefix unchanged. -/
theorem pyReplace_front_matchfree (pre rest pat rep : List Char)
    (h : ∀ i < pre.length, pat.isPrefixOf ((pre ++ rest).drop i) = false) :
    pyReplace (pre ++ rest) pat rep = pre ++ pyReplace rest pat rep := by
  induction pre with
  | nil => simp
  | cons c pre' ih =>
    have h0 : pat.isPrefixOf (c :: (pre' ++ rest)) = false := by
      have hh := h 0 (by simp)
      simpa using hh
    have ih' : pyReplace (pre' ++ rest) pat rep = pre' ++ pyReplace rest pat rep := by
      apply ih
      intro i hi
      have hh := h (i + 1) (by simpa using Nat.succ_lt_succ hi)
      simpa using hh
    rw [List.cons_append, pyReplace_cons, if_neg (by simp [h0]), ih']
    rfl

/-- Lemma: `str.replace` on a string with exactly one pattern occurrence:
the occurrence is replaced and everything around it is untouched. -/
theorem pyReplace_single (pre suf pat rep : List Char) (hp : pat ≠ [])
    (hpre : ∀ i < pre.length,
      pat.isPrefixOf ((pre ++ pat ++ suf).drop i) = false)
    (hsuf : hasOccur suf pat = false) :
    pyReplace (pre ++ pat ++ suf) pat rep = pre ++ (rep ++ suf) := by
  have h1 : pyReplace (pre ++ (pat ++ suf)) pat rep =
      pre ++ pyReplace (pat ++ suf) pat rep := by
    apply pyReplace_front_matchfree
    intro i hi
    have hh := hpre i hi
    simpa [List.append_assoc] using hh
  calc pyReplace (pre ++ pat ++ suf) pat rep
      = pyReplace (pre ++ (pat ++ suf)) pat rep := by rw [List.append_assoc]
    _ = pre ++ pyReplace (pat ++ suf) pat rep := h1
    _ = pre ++ (rep ++ pyReplace suf pat rep) := by
        rw [pyReplace_head _ _ _ hp]
    _ = pre ++ (rep ++ suf) := by
        rw [pyReplace_of_hasOccur_eq_false _ _ _ hsuf]

/-- C2 counterexample: with a template containing no placeholder and a
successful model response, `generate_tailored_resume` does **not** fail:
`str.replace` finds nothing to replace and the call succeeds, returning
the template unchanged — contradicting the claim that the render fails
and never returns the template unchanged. -/
theorem c2_counterexample :
    (generate_tailored_resume pipeEnvA "NO PLACEHOLDER HERE".data
        PyVal.pynull PyVal.pynull PyVal.pynull).1 =
      .ok "NO PLACEHOLDER HERE".data := rfl

/-- C2 amended: with a successful model response and a template
containing no occurrence of `{{CONTENT}}`, `generate_tailored_resume`
succeeds and returns the template unchanged (only a failing model call
makes the render fail). -/
theorem c2_no_placeholder_returns_template (env : PipeEnv)
    (template : List Char) (rd st ja : PyVal) (resp : List Char)
    (hm : env.render_model rd ja st = .ok resp)
    (hno : hasOccur template placeholderL = false) :
    (generate_tailored_resume env template rd st ja).1 = .ok template := by
  simp [generate_tailored_resume, hm,
    pyReplace_of_hasOccur_eq_false _ _ _ hno]

/-- C2 witness: a concrete placeholder-free template. -/
theorem c2_witness :
    (generate_tailored_resume pipeEnvA "HELLO".data
        PyVal.pynull PyVal.pynull PyVal.pynull).1 = .ok "HELLO".data :=
  c2_no_placeholder_returns_template pipeEnvA "HELLO".data
    PyVal.pynull PyVal.pynull PyVal.pynull "X".data rfl (by decide)

/-- C6 counterexample: on a template with two placeholder occurrences,
`str.replace` substitutes the model content at **both** positions, so
the output is not the template with the content merged at a single
placeholder position (either single-position merge is refuted). -/
theorem c6_counterexample :
    (generate_tailored_resume pipeEnvZ tmplTwo
        PyVal.pynull PyVal.pynull PyVal.pynull).1 = .ok "AZQJBZQJC".data
    ∧ "AZQJBZQJC".data ≠ "AZQJB".data ++ placeholderL ++ "C".data
    ∧ "AZQJBZQJC".data ≠ "A".data ++ placeholderL ++ "BZQJC".data :=
  ⟨rfl, by decide, by decide⟩

/-- C6 amended: the renderer merges by exact substring replacement at
**every** occurrence of `{{CONTENT}}`; for a template with exactly one
occurrence the output is the template with the cleaned model content at
that position and every other template character unchanged.  The merge
is a pure function of the template and the response (no other input
enters the `replace`), so with a fixed response it is deterministic. -/
theorem c6_single_placeholder_merge (env : PipeEnv) (pre suf : List Char)
    (rd st ja : PyVal) (resp : List Char)
    (hm : env.render_model rd ja st = .ok resp)
    (hpre : ∀ i < pre.length,
      placeholderL.isPrefixOf ((pre ++ placeholderL ++ suf).drop i) = false)
    (hsuf : hasOccur suf placeholderL = false) :
    (generate_tailored_resume env (pre ++ placeholderL ++ suf) rd st ja).1 =
      .ok (pre ++ (cleanLatex resp ++ suf)) := by
  have hph : placeholderL ≠ [] := by decide
  simp only [generate_tailored_resume, hm]
  rw [← List.append_assoc,
    pyReplace_single pre suf placeholderL (cleanLatex resp) hph hpre hsuf,
    ← List.append_assoc]

/-- C6 witness: a one-placeholder template merged concretely. -/
theorem c6_witness :
    (generate_tailored_resume pipeEnvZ ("A".data ++ placeholderL ++ "B".data)
        PyVal.pynull PyVal.pynull PyVal.pynull).1 =
      .ok ("A".data ++ (cleanLatex "ZQJ".data ++ "B".data)) :=
  c6_single_placeholder_merge pipeEnvZ "A".data "B".data
    PyVal.pynull PyVal.pynull PyVal.pynull "ZQJ".data rfl (by decide) (by decide)

/-- C1: evaluating `generate_tailored_content` at a concrete input with
a non-null `context_override` shows the claimed behaviour does not hold
in the code: the trace still contains a retrieval from the vector store
(the RetrievalQA chain's own retriever), and the single LLM call is
grounded on the retrieved document text, not on the supplied override —
the local `context` computed from `context_override` on lines 209–213 is
dead, never reaching the chain built on lines 244–250. -/
theorem c1_context_override_ignored :
    (generate_tailored_content ragEnvA
        ⟨some ⟨[resumeDoc "RESUME FACTS".data "u1".data]⟩⟩
        "emphasize Python".data "u1".data (some "OVERRIDE CONTEXT".data)).2.2 =
      [Event.retrieve "emphasize Python".data 5,
       Event.llmCall "RESUME FACTS".data "emphasize Python".data]
    ∧ "RESUME FACTS".data ≠ "OVERRIDE CONTEXT".data
    ∧ (generate_tailored_content ragEnvA
        ⟨some ⟨[resumeDoc "RESUME FACTS".data "u1".data]⟩⟩
        "emphasize Python".data "u1".data (some "OVERRIDE CONTEXT".data)).2.1.success
        = true :=
  ⟨rfl, by decide, rfl⟩

end AlignAI
